import Mathlib

/-!
Verification of the goggles occlusion transform (`src/goggles.py`).

The file shallowly embeds `GogglesTransform.__call__`: the geometry (eye
midpoint, overlay width/height, slope-based rotation angle, paste anchor) is
translated directly from the source over the reals; the external collaborators
(the face detector `detect_faces` from `data_utils`, and the PIL primitives
`Image.new`, `Image.rotate(expand=True)`, `Image.paste(mask)`) are not in
`src/` and are modelled from the specification, as noted on each definition.
Python `int()` truncation and Python's division-by-zero / index-out-of-range
faults are modelled explicitly.
-/

namespace Goggles

/-- RGBA pixel value: red, green, blue, alpha channels. -/
abbrev Pixel := ℕ × ℕ × ℕ × ℕ

/-- Alpha channel of a pixel. -/
def alphaOf (p : Pixel) : ℕ := p.2.2.2

/-- Result of `ImageColor.getrgb("LightGray")`, with the full opacity that
`Image.new` fills in for the missing alpha band in RGBA mode. -/
def lightGray : Pixel := (211, 211, 211, 255)

/-- Modelled from the spec: the caller's in-memory image, a 2D pixel buffer in
an alpha-capable color mode; pixels are indexed by integer coordinates. -/
structure PImage where
  pix : ℤ → ℤ → Pixel

/-- Modelled from the spec: the output of the external face detector
`detect_faces(image) -> (bounding_boxes, landmarks)` (`data_utils` is not in
`src/`): an ordered sequence of per-face bounding rectangles and an ordered
sequence of per-face flattened numeric landmark arrays. -/
structure DetectionResult where
  boundingBoxes : List (ℝ × ℝ × ℝ × ℝ)
  landmarks : List (List ℝ)

/-- Faults the Python code can raise: an index out of range, or a division by
zero. -/
inductive Fault where
  | indexError : Fault
  | zeroDivisionError : Fault
deriving DecidableEq

/-- Modelled from the spec: an ephemeral raster (the goggles rectangle, possibly
rotated): a color mode, a size and a per-pixel value. -/
structure Overlay where
  mode : String
  width : ℤ
  height : ℤ
  pix : ℤ → ℤ → Pixel

/-- Modelled from the spec: `PIL.Image.new(mode, (w, h), color)` — a solid
rectangle of the given size; pixels inside the size get the fill color, the
(empty) outside is fully transparent. -/
def imageNew (mode : String) (w h : ℤ) (c : Pixel) : Overlay :=
  { mode := mode, width := w, height := h,
    pix := fun x y => if 0 ≤ x ∧ x < w ∧ 0 ≤ y ∧ y < h then c else (0, 0, 0, 0) }

/-- Python `int()` on a real value: truncation toward zero. -/
noncomputable def pyInt (x : ℝ) : ℤ := if 0 ≤ x then ⌊x⌋ else ⌈x⌉

/-- Image of the point `(x, y)` under rotation by `θ` radians about `(cx, cy)`,
x-coordinate. -/
noncomputable def rotPointX (θ cx cy x y : ℝ) : ℝ :=
  Real.cos θ * (x - cx) - Real.sin θ * (y - cy) + cx

/-- Image of the point `(x, y)` under rotation by `θ` radians about `(cx, cy)`,
y-coordinate. -/
noncomputable def rotPointY (θ cx cy x y : ℝ) : ℝ :=
  Real.sin θ * (x - cx) + Real.cos θ * (y - cy) + cy

/-- Largest x-coordinate among the four rotated corners of a `w × h` rectangle. -/
noncomputable def expandMaxX (θ cx cy w h : ℝ) : ℝ :=
  max (max (rotPointX θ cx cy 0 0) (rotPointX θ cx cy w 0))
    (max (rotPointX θ cx cy w h) (rotPointX θ cx cy 0 h))

/-- Smallest x-coordinate among the four rotated corners of a `w × h` rectangle. -/
noncomputable def expandMinX (θ cx cy w h : ℝ) : ℝ :=
  min (min (rotPointX θ cx cy 0 0) (rotPointX θ cx cy w 0))
    (min (rotPointX θ cx cy w h) (rotPointX θ cx cy 0 h))

/-- Largest y-coordinate among the four rotated corners of a `w × h` rectangle. -/
noncomputable def expandMaxY (θ cx cy w h : ℝ) : ℝ :=
  max (max (rotPointY θ cx cy 0 0) (rotPointY θ cx cy w 0))
    (max (rotPointY θ cx cy w h) (rotPointY θ cx cy 0 h))

/-- Smallest y-coordinate among the four rotated corners of a `w × h` rectangle. -/
noncomputable def expandMinY (θ cx cy w h : ℝ) : ℝ :=
  min (min (rotPointY θ cx cy 0 0) (rotPointY θ cx cy w 0))
    (min (rotPointY θ cx cy w h) (rotPointY θ cx cy 0 h))

/-- Modelled from the spec: `PIL.Image.rotate(angleDeg, expand=True,
center=(cx, cy))` — rotate by `angleDeg` degrees about `(cx, cy)` and expand
the canvas to the integer bounding box of the four rotated corners (ceiling of
the largest minus floor of the smallest coordinate); a destination pixel is
sampled from the source through the inverse rotation, and the newly exposed
corner areas are fully transparent because the source is transparent outside
its bounds. -/
noncomputable def rotateOv (r : Overlay) (angleDeg : ℝ) (cx cy : ℝ) : Overlay :=
  { mode := r.mode,
    width := ⌈expandMaxX (angleDeg * Real.pi / 180) cx cy (r.width : ℝ) (r.height : ℝ)⌉ -
      ⌊expandMinX (angleDeg * Real.pi / 180) cx cy (r.width : ℝ) (r.height : ℝ)⌋,
    height := ⌈expandMaxY (angleDeg * Real.pi / 180) cx cy (r.width : ℝ) (r.height : ℝ)⌉ -
      ⌊expandMinY (angleDeg * Real.pi / 180) cx cy (r.width : ℝ) (r.height : ℝ)⌋,
    pix := fun i j =>
      r.pix
        ⌊rotPointX (-(angleDeg * Real.pi / 180)) cx cy
          ((i : ℝ) + ⌊expandMinX (angleDeg * Real.pi / 180) cx cy (r.width : ℝ) (r.height : ℝ)⌋)
          ((j : ℝ) + ⌊expandMinY (angleDeg * Real.pi / 180) cx cy (r.width : ℝ) (r.height : ℝ)⌋)⌋
        ⌊rotPointY (-(angleDeg * Real.pi / 180)) cx cy
          ((i : ℝ) + ⌊expandMinX (angleDeg * Real.pi / 180) cx cy (r.width : ℝ) (r.height : ℝ)⌋)
          ((j : ℝ) + ⌊expandMinY (angleDeg * Real.pi / 180) cx cy (r.width : ℝ) (r.height : ℝ)⌋)⌋ }

/-- Modelled from the spec: `PIL.Image.paste(ov, (px, py), mask)` — draw `ov`
with its top-left corner at `(px, py)`; inside the pasted region a destination
pixel takes the overlay pixel where the mask's alpha is nonzero and keeps its
old value where the mask's alpha is zero; outside the region nothing changes.
The in-place mutation is modelled by returning the updated buffer. -/
def paste (img : PImage) (ov : Overlay) (px py : ℤ) (mask : Overlay) : PImage :=
  ⟨fun x y =>
    if px ≤ x ∧ x < px + ov.width ∧ py ≤ y ∧ y < py + ov.height ∧
        alphaOf (mask.pix (x - px) (y - py)) ≠ 0 then
      ov.pix (x - px) (y - py)
    else img.pix x y⟩

namespace GogglesTransform

/-- Line `middle_eyes_x = (right_eye_x + left_eye_x) / 2` of the source. -/
noncomputable def middle_eyes_x (left_eye_x right_eye_x : ℝ) : ℝ :=
  (right_eye_x + left_eye_x) / 2

/-- Line `middle_eyes_y = (right_eye_y + left_eye_y) / 2` of the source. -/
noncomputable def middle_eyes_y (left_eye_y right_eye_y : ℝ) : ℝ :=
  (right_eye_y + left_eye_y) / 2

/-- Line `googles_width = 2.2 * math.sqrt(...)` of the source. -/
noncomputable def googles_width (left_eye_x left_eye_y right_eye_x right_eye_y : ℝ) : ℝ :=
  2.2 * Real.sqrt ((right_eye_y - left_eye_y) ^ 2 + (right_eye_x - left_eye_x) ^ 2)

/-- Line `googles_height = 1.5 * math.sqrt(...)` of the source. -/
noncomputable def googles_height (left_eye_x left_eye_y right_eye_x right_eye_y nose_x nose_y : ℝ) : ℝ :=
  1.5 * Real.sqrt ((middle_eyes_y left_eye_y right_eye_y - nose_y) ^ 2 +
    (middle_eyes_x left_eye_x right_eye_x - nose_x) ^ 2)

/-- Line `angle = (right_eye_y - left_eye_y) / (right_eye_x - left_eye_x) * 180 / math.pi`
of the source (the Lean total division; the code's division-by-zero fault is
raised separately in `call`). -/
noncomputable def angle (left_eye_x left_eye_y right_eye_x right_eye_y : ℝ) : ℝ :=
  (right_eye_y - left_eye_y) / (right_eye_x - left_eye_x) * 180 / Real.pi

/-- Line `rectangle = Image.new("RGBA", (int(googles_width), int(googles_height)),
color=ImageColor.getrgb("LightGray"))` of the source. -/
noncomputable def rectangle (lex ley rex rey nx ny : ℝ) : Overlay :=
  imageNew "RGBA" (pyInt (googles_width lex ley rex rey)) (pyInt (googles_height lex ley rex rey nx ny))
    lightGray

/-- Line `rectangle = rectangle.rotate(-angle, expand=True,
center=(middle_rectangle_x, middle_rectangle_y))` of the source, with
`middle_rectangle_x, middle_rectangle_y = googles_width / 2, googles_height / 2`. -/
noncomputable def rotatedRectangle (lex ley rex rey nx ny : ℝ) : Overlay :=
  rotateOv (rectangle lex ley rex rey nx ny) (-(angle lex ley rex rey))
    (googles_width lex ley rex rey / 2) (googles_height lex ley rex rey nx ny / 2)

/-- First component of the paste box
`(int(middle_eyes_x - final_size[0]/2), int(middle_eyes_y - final_size[1]/2))`. -/
noncomputable def pasteX (lex ley rex rey nx ny : ℝ) : ℤ :=
  pyInt (middle_eyes_x lex rex - ((rotatedRectangle lex ley rex rey nx ny).width : ℝ) / 2)

/-- Second component of the paste box. -/
noncomputable def pasteY (lex ley rex rey nx ny : ℝ) : ℤ :=
  pyInt (middle_eyes_y ley rey - ((rotatedRectangle lex ley rex rey nx ny).height : ℝ) / 2)

/-- Lines 12-17 of the source: the six landmark reads `landmarks[0][0]`,
`landmarks[0][5]`, `landmarks[0][1]`, `landmarks[0][6]`, `landmarks[0][2]`,
`landmarks[0][7]` from the first face, as
(left eye x, left eye y, right eye x, right eye y, nose x, nose y); `none`
models the Python `IndexError` when the array is too short. -/
def extractLandmarks (face : List ℝ) : Option (ℝ × ℝ × ℝ × ℝ × ℝ × ℝ) :=
  match face[0]?, face[5]?, face[1]?, face[6]?, face[2]?, face[7]? with
  | some lex, some ley, some rex, some rey, some nx, some ny =>
    some (lex, ley, rex, rey, nx, ny)
  | _, _, _, _, _, _ => none

/-- Body of `__call__` after the emptiness check, on the first face's landmark
array: extract the six coordinates, build and rotate the light-gray rectangle,
and alpha-paste it (as its own mask) at the eye midpoint; a short landmark
array is an `IndexError`, and eyes sharing an x-coordinate make the slope
division at line 24 a `ZeroDivisionError`. -/
noncomputable def callFace (sample : PImage) (face : List ℝ) : Except Fault PImage :=
  match extractLandmarks face with
  | none => .error .indexError
  | some (lex, ley, rex, rey, nx, ny) =>
    if rex - lex = 0 then .error .zeroDivisionError
    else
      .ok (paste sample (rotatedRectangle lex ley rex rey nx ny)
        (pasteX lex ley rex rey nx ny) (pasteY lex ley rex rey nx ny)
        (rotatedRectangle lex ley rex rey nx ny))

/-- The whole of `GogglesTransform.__call__`: run on the (externally produced)
detection result; an empty landmark list returns the sample unchanged,
otherwise only the first face's landmarks are used. -/
noncomputable def call (sample : PImage) (det : DetectionResult) : Except Fault PImage :=
  if det.landmarks.length = 0 then .ok sample
  else
    match det.landmarks[0]? with
    | some face => callFace sample face
    | none => .error .indexError

end GogglesTransform

/-! ### Concrete inputs used to exercise the transform -/

/-- Constant test image. -/
def baseImage : PImage := ⟨fun _ _ => (1, 2, 3, 255)⟩

/-- Detection result with no face: empty landmark list. -/
def emptyDet : DetectionResult := ⟨[], []⟩

/-- Flattened landmark array (5 x-coordinates then 5 y-coordinates) encoding
left-eye (0,0), right-eye (10,0), nose (5,10). -/
def cFace : List ℝ := [0, 10, 5, 0, 0, 0, 0, 10, 0, 0]

/-- Detection result holding `cFace` only. -/
def cDet : DetectionResult := ⟨[], [cFace]⟩

/-- Flattened landmark array encoding left-eye (0,0), right-eye (10,10),
nose (5,10): a 45-degree eye line. -/
def slantFace : List ℝ := [0, 10, 5, 0, 0, 0, 10, 10, 0, 0]

/-- Detection result holding `slantFace` only. -/
def slantDet : DetectionResult := ⟨[], [slantFace]⟩

/-- Flattened landmark array with both eyes at x = 3: a vertical eye line. -/
def vertFace : List ℝ := [3, 3, 5, 0, 0, 1, 2, 10, 0, 0]

/-- Detection result holding `vertFace` only. -/
def vertDet : DetectionResult := ⟨[], [vertFace]⟩

/-- Malformed landmark array: only three entries, fewer than the eight the
fixed indices require. -/
def shortFace : List ℝ := [1, 2, 3]

/-- Detection result holding `shortFace` only. -/
def shortDet : DetectionResult := ⟨[⟨0, 0, 9, 9⟩], [shortFace]⟩

/-- Detection result sharing its first landmark entry with `cDet` but with a
bounding box and a second face appended. -/
def cDetExtra : DetectionResult := ⟨[⟨2, 2, 8, 8⟩], [cFace, vertFace]⟩

/-- Output image of the transform on `baseImage` with `cDet`. -/
noncomputable def cOut : PImage :=
  paste baseImage (GogglesTransform.rotatedRectangle 0 0 10 0 5 10)
    (GogglesTransform.pasteX 0 0 10 0 5 10) (GogglesTransform.pasteY 0 0 10 0 5 10)
    (GogglesTransform.rotatedRectangle 0 0 10 0 5 10)

/-- Point of the Euclidean plane, the spec's notion of distance being the
Euclidean one. -/
noncomputable def p2 (x y : ℝ) : EuclideanSpace ℝ (Fin 2) := ![x, y]

/-! ### Helper lemmas -/

open GogglesTransform

lemma dist_p2 (a b c d : ℝ) :
    dist (p2 a b) (p2 c d) = Real.sqrt ((a - c) ^ 2 + (b - d) ^ 2) := by
  rw [EuclideanSpace.dist_eq]
  simp [p2, Fin.sum_univ_two, Real.dist_eq, sq_abs]

lemma pyInt_eq_floor (x : ℝ) (h : 0 ≤ x) : pyInt x = ⌊x⌋ := if_pos h

lemma abs_pyInt_sub_lt (z : ℝ) : |(pyInt z : ℝ) - z| < 1 := by
  rcases le_or_lt 0 z with h | h
  · rw [pyInt, if_pos h, abs_sub_lt_iff]
    constructor
    · have := Int.floor_le z
      linarith
    · have := Int.lt_floor_add_one z
      linarith
  · rw [pyInt, if_neg (not_le.mpr h), abs_sub_lt_iff]
    constructor
    · have := Int.ceil_lt_add_one z
      linarith
    · have := Int.le_ceil z
      linarith

lemma googles_width_nonneg (lex ley rex rey : ℝ) : 0 ≤ googles_width lex ley rex rey :=
  mul_nonneg (by norm_num) (Real.sqrt_nonneg _)

lemma googles_height_nonneg (lex ley rex rey nx ny : ℝ) :
    0 ≤ googles_height lex ley rex rey nx ny :=
  mul_nonneg (by norm_num) (Real.sqrt_nonneg _)

lemma rotPointX_zero (cx cy x y : ℝ) : rotPointX 0 cx cy x y = x := by
  simp [rotPointX]

lemma rotPointY_zero (cx cy x y : ℝ) : rotPointY 0 cx cy x y = y := by
  simp [rotPointY]

lemma expandMaxX_zero (cx cy w h : ℝ) (hw : 0 ≤ w) : expandMaxX 0 cx cy w h = w := by
  rw [expandMaxX, rotPointX_zero, rotPointX_zero, rotPointX_zero, rotPointX_zero,
    max_eq_right hw, max_eq_left hw, max_self]

lemma expandMinX_zero (cx cy w h : ℝ) (hw : 0 ≤ w) : expandMinX 0 cx cy w h = 0 := by
  rw [expandMinX, rotPointX_zero, rotPointX_zero, rotPointX_zero, rotPointX_zero,
    min_eq_left hw, min_eq_right hw, min_self]

lemma expandMaxY_zero (cx cy w h : ℝ) (hh : 0 ≤ h) : expandMaxY 0 cx cy w h = h := by
  rw [expandMaxY, rotPointY_zero, rotPointY_zero, rotPointY_zero, rotPointY_zero,
    max_self, max_self, max_eq_right hh]

lemma expandMinY_zero (cx cy w h : ℝ) (hh : 0 ≤ h) : expandMinY 0 cx cy w h = 0 := by
  rw [expandMinY, rotPointY_zero, rotPointY_zero, rotPointY_zero, rotPointY_zero,
    min_self, min_self, min_eq_left hh]

lemma rotateOv_zero_width (r : Overlay) (cx cy : ℝ) (hw : 0 ≤ r.width) :
    (rotateOv r 0 cx cy).width = r.width := by
  have h0 : (0 : ℝ) * Real.pi / 180 = 0 := by ring
  have hw' : (0 : ℝ) ≤ (r.width : ℝ) := Int.cast_nonneg.mpr hw
  simp only [rotateOv, h0, expandMaxX_zero _ _ _ _ hw', expandMinX_zero _ _ _ _ hw',
    Int.ceil_intCast, Int.floor_zero, sub_zero]

lemma rotateOv_zero_height (r : Overlay) (cx cy : ℝ) (hh : 0 ≤ r.height) :
    (rotateOv r 0 cx cy).height = r.height := by
  have h0 : (0 : ℝ) * Real.pi / 180 = 0 := by ring
  have hh' : (0 : ℝ) ≤ (r.height : ℝ) := Int.cast_nonneg.mpr hh
  simp only [rotateOv, h0, expandMaxY_zero _ _ _ _ hh', expandMinY_zero _ _ _ _ hh',
    Int.ceil_intCast, Int.floor_zero, sub_zero]

lemma call_eq_ok (sample : PImage) (det : DetectionResult) (face : List ℝ)
    (lex ley rex rey nx ny : ℝ)
    (hface : det.landmarks[0]? = some face)
    (hex : extractLandmarks face = some (lex, ley, rex, rey, nx, ny))
    (hne : rex ≠ lex) :
    call sample det = .ok (paste sample (rotatedRectangle lex ley rex rey nx ny)
      (pasteX lex ley rex rey nx ny) (pasteY lex ley rex rey nx ny)
      (rotatedRectangle lex ley rex rey nx ny)) := by
  have hlen : det.landmarks.length ≠ 0 := by
    intro h0
    rw [List.length_eq_zero] at h0
    rw [h0] at hface
    simp at hface
  rw [call, if_neg hlen, hface]
  show callFace sample face = _
  rw [callFace, hex]
  show (if rex - lex = 0 then _ else _) = _
  rw [if_neg (sub_ne_zero.mpr hne)]

lemma sqrt_hundred : Real.sqrt 100 = 10 := by
  rw [show (100 : ℝ) = 10 ^ 2 by norm_num, Real.sqrt_sq (by norm_num : (0 : ℝ) ≤ 10)]

lemma cgw : googles_width 0 0 10 0 = 22 := by
  rw [googles_width, show ((0 : ℝ) - 0) ^ 2 + ((10 : ℝ) - 0) ^ 2 = 100 by norm_num,
    sqrt_hundred]
  norm_num

lemma cmidx : middle_eyes_x 0 10 = 5 := by
  rw [middle_eyes_x]
  norm_num

lemma cmidy : middle_eyes_y 0 0 = 0 := by
  rw [middle_eyes_y]
  norm_num

lemma cgh : googles_height 0 0 10 0 5 10 = 15 := by
  rw [googles_height, cmidx, cmidy,
    show ((0 : ℝ) - 10) ^ 2 + ((5 : ℝ) - 5) ^ 2 = 100 by norm_num, sqrt_hundred]
  norm_num

lemma cangle : angle 0 0 10 0 = 0 := by
  rw [angle]
  norm_num

lemma floor_twentytwo : ⌊(22 : ℝ)⌋ = 22 := by
  rw [show (22 : ℝ) = ((22 : ℤ) : ℝ) by norm_num, Int.floor_intCast]

lemma floor_fifteen : ⌊(15 : ℝ)⌋ = 15 := by
  rw [show (15 : ℝ) = ((15 : ℤ) : ℝ) by norm_num, Int.floor_intCast]

lemma crectW : (rectangle 0 0 10 0 5 10).width = 22 := by
  show pyInt (googles_width 0 0 10 0) = 22
  rw [cgw, pyInt, if_pos (by norm_num : (0 : ℝ) ≤ 22), floor_twentytwo]

lemma crectH : (rectangle 0 0 10 0 5 10).height = 15 := by
  show pyInt (googles_height 0 0 10 0 5 10) = 15
  rw [cgh, pyInt, if_pos (by norm_num : (0 : ℝ) ≤ 15), floor_fifteen]

lemma crotW : (rotatedRectangle 0 0 10 0 5 10).width = 22 := by
  rw [rotatedRectangle, cangle, neg_zero,
    rotateOv_zero_width _ _ _ (by rw [crectW]; norm_num), crectW]

lemma crotH : (rotatedRectangle 0 0 10 0 5 10).height = 15 := by
  rw [rotatedRectangle, cangle, neg_zero,
    rotateOv_zero_height _ _ _ (by rw [crectH]; norm_num), crectH]

lemma cpX : pasteX 0 0 10 0 5 10 = -6 := by
  rw [pasteX, crotW, cmidx,
    show (5 : ℝ) - ((22 : ℤ) : ℝ) / 2 = -6 by norm_num, pyInt,
    if_neg (by norm_num : ¬(0 : ℝ) ≤ -6),
    show (-6 : ℝ) = ((-6 : ℤ) : ℝ) by norm_num, Int.ceil_intCast]

lemma cpY : pasteY 0 0 10 0 5 10 = -7 := by
  rw [pasteY, crotH, cmidy, pyInt,
    if_neg (by norm_num : ¬(0 : ℝ) ≤ 0 - ((15 : ℤ) : ℝ) / 2)]
  refine Int.ceil_eq_iff.mpr ⟨by norm_num, by norm_num⟩

/-! ### The claims -/

/-- C1: Identity fallback — for every image for which the detector returns an
empty landmark list, the call returns the input image itself, unchanged and
without a fault. -/
theorem identity_fallback (sample : PImage) (det : DetectionResult)
    (h : det.landmarks = []) :
    call sample det = .ok sample := by
  rw [call, if_pos (by rw [h]; rfl)]

/-- C1 witness: the empty detection result on the constant test image. -/
theorem identity_fallback_witness :
    emptyDet.landmarks = [] ∧ call baseImage emptyDet = .ok baseImage :=
  ⟨rfl, identity_fallback baseImage emptyDet rfl⟩

/-- C2: Overlay size — for every non-empty landmark result, the pre-rotation
width is 2.2 times the Euclidean distance between the eyes, the height is 1.5
times the Euclidean distance between the eye midpoint (the arithmetic mean of
the eye coordinates) and the nose, and the rectangle is built with integer size
(floor of width, floor of height), solid light gray, in the alpha-capable RGBA
mode with full alpha. -/
theorem overlay_size (sample : PImage) (det : DetectionResult) (face : List ℝ)
    (lex ley rex rey nx ny : ℝ)
    (hface : det.landmarks[0]? = some face)
    (hex : extractLandmarks face = some (lex, ley, rex, rey, nx, ny)) :
    googles_width lex ley rex rey = 2.2 * dist (p2 lex ley) (p2 rex rey) ∧
    googles_height lex ley rex rey nx ny =
      1.5 * dist (p2 ((lex + rex) / 2) ((ley + rey) / 2)) (p2 nx ny) ∧
    rectangle lex ley rex rey nx ny =
      imageNew "RGBA" ⌊googles_width lex ley rex rey⌋
        ⌊googles_height lex ley rex rey nx ny⌋ lightGray ∧
    alphaOf lightGray = 255 := by
  refine ⟨?_, ?_, ?_, rfl⟩
  · rw [googles_width, dist_p2]
    congr 1
    congr 1
    ring
  · rw [googles_height, dist_p2]
    simp only [middle_eyes_x, middle_eyes_y]
    congr 1
    congr 1
    ring
  · rw [rectangle, pyInt_eq_floor _ (googles_width_nonneg lex ley rex rey),
      pyInt_eq_floor _ (googles_height_nonneg lex ley rex rey nx ny)]

/-- C2 witness: the landmark set with eyes (0,0), (10,0) and nose (5,10). -/
theorem overlay_size_witness :
    googles_width 0 0 10 0 = 2.2 * dist (p2 0 0) (p2 10 0) ∧
    googles_height 0 0 10 0 5 10 =
      1.5 * dist (p2 ((0 + 10) / 2) ((0 + 0) / 2)) (p2 5 10) ∧
    rectangle 0 0 10 0 5 10 =
      imageNew "RGBA" ⌊googles_width 0 0 10 0⌋ ⌊googles_height 0 0 10 0 5 10⌋ lightGray ∧
    alphaOf lightGray = 255 :=
  overlay_size baseImage cDet cFace 0 0 10 0 5 10 rfl rfl

/-- C3: Rotation — for every non-empty landmark result with distinct eye
x-coordinates, the angle in degrees is the raw slope multiplied by 180/π, the
rectangle is rotated by the negative of that angle with the canvas expanded,
about the rectangle's center; in particular for eyes at (0,0) and (10,10) the
angle is 180/π, which differs from the true arctangent value and from 45. -/
theorem rotation_slope_angle (sample : PImage) (det : DetectionResult) (face : List ℝ)
    (lex ley rex rey nx ny : ℝ)
    (hface : det.landmarks[0]? = some face)
    (hex : extractLandmarks face = some (lex, ley, rex, rey, nx, ny))
    (hne : rex ≠ lex) :
    angle lex ley rex rey = (rey - ley) / (rex - lex) * (180 / Real.pi) ∧
    rotatedRectangle lex ley rex rey nx ny =
      rotateOv (rectangle lex ley rex rey nx ny) (-(angle lex ley rex rey))
        (googles_width lex ley rex rey / 2) (googles_height lex ley rex rey nx ny / 2) ∧
    angle 0 0 10 10 = 180 / Real.pi ∧
    angle 0 0 10 10 ≠ Real.arctan ((10 - 0) / (10 - 0)) * (180 / Real.pi) ∧
    angle 0 0 10 10 ≠ 45 := by
  have h3 : angle 0 0 10 10 = 180 / Real.pi := by
    rw [angle]
    norm_num
  have h45 : (180 : ℝ) / Real.pi ≠ 45 := by
    intro h
    have hpi : Real.pi < 3.15 := Real.pi_lt_d2
    rw [div_eq_iff (ne_of_gt Real.pi_pos)] at h
    linarith
  refine ⟨by rw [angle]; ring, rfl, h3, ?_, by rw [h3]; exact h45⟩
  rw [h3, show ((10 : ℝ) - 0) / ((10 : ℝ) - 0) = 1 by norm_num, Real.arctan_one]
  have harct : Real.pi / 4 * (180 / Real.pi) = 45 := by
    have hpi0 : Real.pi ≠ 0 := Real.pi_ne_zero
    field_simp
    ring
  rw [harct]
  exact h45

/-- C3 witness: the landmark set with eyes (0,0), (10,10) and nose (5,10). -/
theorem rotation_slope_angle_witness :
    angle 0 0 10 10 = (10 - 0) / (10 - 0) * (180 / Real.pi) ∧
    rotatedRectangle 0 0 10 10 5 10 =
      rotateOv (rectangle 0 0 10 10 5 10) (-(angle 0 0 10 10))
        (googles_width 0 0 10 10 / 2) (googles_height 0 0 10 10 5 10 / 2) ∧
    angle 0 0 10 10 = 180 / Real.pi ∧
    angle 0 0 10 10 ≠ Real.arctan ((10 - 0) / (10 - 0)) * (180 / Real.pi) ∧
    angle 0 0 10 10 ≠ 45 :=
  rotation_slope_angle baseImage slantDet slantFace 0 0 10 10 5 10 rfl rfl (by norm_num)

/-- C4: Anchor — for every non-empty landmark result on which the call
completes, the rotated shape is pasted, with itself as the alpha mask, at the
truncated coordinates (eye midpoint minus half the rotated size), so the center
of the pasted region is within one pixel of the eye midpoint in each axis. -/
theorem paste_anchor (sample : PImage) (det : DetectionResult) (face : List ℝ)
    (lex ley rex rey nx ny : ℝ)
    (hface : det.landmarks[0]? = some face)
    (hex : extractLandmarks face = some (lex, ley, rex, rey, nx, ny))
    (hne : rex ≠ lex) :
    call sample det = .ok (paste sample (rotatedRectangle lex ley rex rey nx ny)
      (pasteX lex ley rex rey nx ny) (pasteY lex ley rex rey nx ny)
      (rotatedRectangle lex ley rex rey nx ny)) ∧
    pasteX lex ley rex rey nx ny =
      pyInt (middle_eyes_x lex rex -
        ((rotatedRectangle lex ley rex rey nx ny).width : ℝ) / 2) ∧
    pasteY lex ley rex rey nx ny =
      pyInt (middle_eyes_y ley rey -
        ((rotatedRectangle lex ley rex rey nx ny).height : ℝ) / 2) ∧
    |((pasteX lex ley rex rey nx ny : ℝ) +
        ((rotatedRectangle lex ley rex rey nx ny).width : ℝ) / 2) -
      middle_eyes_x lex rex| ≤ 1 ∧
    |((pasteY lex ley rex rey nx ny : ℝ) +
        ((rotatedRectangle lex ley rex rey nx ny).height : ℝ) / 2) -
      middle_eyes_y ley rey| ≤ 1 := by
  refine ⟨call_eq_ok sample det face lex ley rex rey nx ny hface hex hne, rfl, rfl, ?_, ?_⟩
  · have h := abs_pyInt_sub_lt (middle_eyes_x lex rex -
      ((rotatedRectangle lex ley rex rey nx ny).width : ℝ) / 2)
    rw [pasteX, show ((pyInt (middle_eyes_x lex rex -
        ((rotatedRectangle lex ley rex rey nx ny).width : ℝ) / 2) : ℝ) +
        ((rotatedRectangle lex ley rex rey nx ny).width : ℝ) / 2) -
        middle_eyes_x lex rex =
      (pyInt (middle_eyes_x lex rex -
        ((rotatedRectangle lex ley rex rey nx ny).width : ℝ) / 2) : ℝ) -
      (middle_eyes_x lex rex -
        ((rotatedRectangle lex ley rex rey nx ny).width : ℝ) / 2) by ring]
    exact le_of_lt h
  · have h := abs_pyInt_sub_lt (middle_eyes_y ley rey -
      ((rotatedRectangle lex ley rex rey nx ny).height : ℝ) / 2)
    rw [pasteY, show ((pyInt (middle_eyes_y ley rey -
        ((rotatedRectangle lex ley rex rey nx ny).height : ℝ) / 2) : ℝ) +
        ((rotatedRectangle lex ley rex rey nx ny).height : ℝ) / 2) -
        middle_eyes_y ley rey =
      (pyInt (middle_eyes_y ley rey -
        ((rotatedRectangle lex ley rex rey nx ny).height : ℝ) / 2) : ℝ) -
      (middle_eyes_y ley rey -
        ((rotatedRectangle lex ley rex rey nx ny).height : ℝ) / 2) by ring]
    exact le_of_lt h

/-- C4 witness: the landmark set with eyes (0,0), (10,0) and nose (5,10). -/
theorem paste_anchor_witness :
    call baseImage cDet = .ok (paste baseImage (rotatedRectangle 0 0 10 0 5 10)
      (pasteX 0 0 10 0 5 10) (pasteY 0 0 10 0 5 10)
      (rotatedRectangle 0 0 10 0 5 10)) ∧
    pasteX 0 0 10 0 5 10 =
      pyInt (middle_eyes_x 0 10 - ((rotatedRectangle 0 0 10 0 5 10).width : ℝ) / 2) ∧
    pasteY 0 0 10 0 5 10 =
      pyInt (middle_eyes_y 0 0 - ((rotatedRectangle 0 0 10 0 5 10).height : ℝ) / 2) ∧
    |((pasteX 0 0 10 0 5 10 : ℝ) +
        ((rotatedRectangle 0 0 10 0 5 10).width : ℝ) / 2) - middle_eyes_x 0 10| ≤ 1 ∧
    |((pasteY 0 0 10 0 5 10 : ℝ) +
        ((rotatedRectangle 0 0 10 0 5 10).height : ℝ) / 2) - middle_eyes_y 0 0| ≤ 1 :=
  paste_anchor baseImage cDet cFace 0 0 10 0 5 10 rfl rfl (by norm_num)

/-- C5: Degenerate geometry — for every non-empty landmark result whose two eye
x-coordinates coincide, the call propagates a division-by-zero fault instead of
returning a result. -/
theorem degenerate_vertical_eyes (sample : PImage) (det : DetectionResult)
    (face : List ℝ) (lex ley rex rey nx ny : ℝ)
    (hface : det.landmarks[0]? = some face)
    (hex : extractLandmarks face = some (lex, ley, rex, rey, nx, ny))
    (heq : lex = rex) :
    call sample det = .error .zeroDivisionError := by
  have hlen : det.landmarks.length ≠ 0 := by
    intro h0
    rw [List.length_eq_zero] at h0
    rw [h0] at hface
    simp at hface
  rw [call, if_neg hlen, hface]
  show callFace sample face = _
  rw [callFace, hex]
  show (if rex - lex = 0 then _ else _) = _
  rw [if_pos (by rw [heq, sub_self])]

/-- C5 witness: a landmark set with both eyes at x = 3. -/
theorem degenerate_vertical_eyes_witness :
    call baseImage vertDet = .error .zeroDivisionError :=
  degenerate_vertical_eyes baseImage vertDet vertFace 3 1 3 2 5 10 rfl rfl rfl

/-- C6 counterexample: on the landmark set encoding left-eye (0,0), right-eye
(10,0), nose (5,10), the computed overlay height is 15, not the claimed
1.5·√125 ≈ 16.77 — the code measures from the eye midpoint (5,0) to the nose,
a distance of 10, not from the left eye. -/
theorem concrete_geometry_spec_height_false :
    extractLandmarks cFace = some (0, 0, 10, 0, 5, 10) ∧
    googles_height 0 0 10 0 5 10 ≠ 1.5 * Real.sqrt 125 := by
  refine ⟨rfl, ?_⟩
  rw [cgh]
  intro h
  have hs : Real.sqrt 125 ^ 2 = 125 := Real.sq_sqrt (by norm_num)
  have h125 : Real.sqrt 125 = 10 := by linarith
  rw [h125] at hs
  norm_num at hs

/-- C6 as amended: for the landmark set encoding left-eye (0,0), right-eye
(10,0), nose (5,10), the width is exactly 22, the height is exactly 15 — which
is 1.5 times the Euclidean distance between the eye midpoint (5,0) and the nose
— the rotation angle is 0, and the rotated rectangle's size equals the
unrotated size. -/
theorem concrete_geometry :
    extractLandmarks cFace = some (0, 0, 10, 0, 5, 10) ∧
    googles_width 0 0 10 0 = 22 ∧
    googles_height 0 0 10 0 5 10 = 15 ∧
    googles_height 0 0 10 0 5 10 = 1.5 * dist (p2 5 0) (p2 5 10) ∧
    angle 0 0 10 0 = 0 ∧
    (rotatedRectangle 0 0 10 0 5 10).width = (rectangle 0 0 10 0 5 10).width ∧
    (rotatedRectangle 0 0 10 0 5 10).height = (rectangle 0 0 10 0 5 10).height := by
  refine ⟨rfl, cgw, cgh, ?_, cangle, ?_, ?_⟩
  · rw [cgh, dist_p2, show ((5 : ℝ) - 5) ^ 2 + ((0 : ℝ) - 10) ^ 2 = 100 by norm_num,
      sqrt_hundred]
    norm_num
  · rw [crotW, crectW]
  · rw [crotH, crectH]

/-- C7: Landmark extraction — on a 10-element flattened landmark array (5
x-coordinates then 5 y-coordinates) the transform takes left-eye = (entry 0,
entry 5), right-eye = (entry 1, entry 6), nose = (entry 2, entry 7), and the
call depends only on the first face's array, whatever follows it. -/
theorem landmark_extraction (x0 x1 x2 x3 x4 y0 y1 y2 y3 y4 : ℝ)
    (rest : List (List ℝ)) (bbs : List (ℝ × ℝ × ℝ × ℝ)) (sample : PImage) :
    extractLandmarks [x0, x1, x2, x3, x4, y0, y1, y2, y3, y4] =
      some (x0, y0, x1, y1, x2, y2) ∧
    call sample ⟨bbs, [x0, x1, x2, x3, x4, y0, y1, y2, y3, y4] :: rest⟩ =
      callFace sample [x0, x1, x2, x3, x4, y0, y1, y2, y3, y4] := by
  refine ⟨rfl, ?_⟩
  rw [call, if_neg (by simp)]
  simp [List.getElem?_cons_zero]

/-- C8: Malformed landmarks — whenever the first landmark entry has fewer than
eight elements, the fixed-index reads fail and the call propagates an index
fault, with no recovery. -/
theorem malformed_landmarks (sample : PImage) (det : DetectionResult) (face : List ℝ)
    (hface : det.landmarks[0]? = some face) (hshort : face.length < 8) :
    call sample det = .error .indexError := by
  have hlen : det.landmarks.length ≠ 0 := by
    intro h0
    rw [List.length_eq_zero] at h0
    rw [h0] at hface
    simp at hface
  have h7 : face[7]? = none := by
    rw [List.getElem?_eq_none_iff]
    omega
  have hex : extractLandmarks face = none := by
    unfold extractLandmarks
    split <;> simp_all
  rw [call, if_neg hlen, hface]
  show callFace sample face = _
  rw [callFace, hex]

/-- C8 witness: a three-element landmark array. -/
theorem malformed_landmarks_witness :
    call baseImage shortDet = .error .indexError :=
  malformed_landmarks baseImage shortDet shortFace rfl (by norm_num [shortFace])

/-- C9: First-face noninterference — two detection results agreeing on their
first landmark entry (bounding boxes and later faces free) give identical
outputs. -/
theorem first_face_only (sample : PImage) (det det' : DetectionResult)
    (h : det.landmarks[0]? = det'.landmarks[0]?) :
    call sample det = call sample det' := by
  obtain ⟨bb, lms⟩ := det
  obtain ⟨bb', lms'⟩ := det'
  cases lms with
  | nil =>
    cases lms' with
    | nil => rfl
    | cons f t => simp at h
  | cons f t =>
    cases lms' with
    | nil => simp at h
    | cons g t' =>
      simp only [List.getElem?_cons_zero, Option.some.injEq] at h
      subst h
      rw [call, call, if_neg (by simp), if_neg (by simp)]
      simp [List.getElem?_cons_zero]

/-- C9 witness: two detection results sharing the first landmark entry but
differing in bounding boxes and in a second face. -/
theorem first_face_only_witness :
    cDet ≠ cDetExtra ∧ call baseImage cDet = call baseImage cDetExtra :=
  ⟨by simp [cDet, cDetExtra], first_face_only baseImage cDet cDetExtra rfl⟩

/-- C10: Frame property — on a completing call, every pixel outside the pasted
region keeps its input value, as does every pixel inside the region where the
rotated shape's alpha (the expanded corners) is zero. -/
theorem frame_property (sample : PImage) (det : DetectionResult) (face : List ℝ)
    (lex ley rex rey nx ny : ℝ) (out : PImage)
    (hface : det.landmarks[0]? = some face)
    (hex : extractLandmarks face = some (lex, ley, rex, rey, nx, ny))
    (hne : rex ≠ lex)
    (hout : call sample det = .ok out) :
    ∀ x y : ℤ,
      (x < pasteX lex ley rex rey nx ny ∨
        pasteX lex ley rex rey nx ny + (rotatedRectangle lex ley rex rey nx ny).width ≤ x ∨
        y < pasteY lex ley rex rey nx ny ∨
        pasteY lex ley rex rey nx ny + (rotatedRectangle lex ley rex rey nx ny).height ≤ y ∨
        alphaOf ((rotatedRectangle lex ley rex rey nx ny).pix
          (x - pasteX lex ley rex rey nx ny) (y - pasteY lex ley rex rey nx ny)) = 0) →
      out.pix x y = sample.pix x y := by
  intro x y hcond
  have hok := call_eq_ok sample det face lex ley rex rey nx ny hface hex hne
  rw [hout] at hok
  have hpq := Except.ok.inj hok
  rw [hpq]
  simp only [paste]
  rw [if_neg]
  rintro ⟨h1, h2, h3, h4, h5⟩
  rcases hcond with c | c | c | c | c
  · omega
  · omega
  · omega
  · omega
  · exact h5 c

/-- C10 witness: on the completing call for eyes (0,0), (10,0), the pixel at
(1000, 1000), far right of the pasted region, keeps its input value. -/
theorem frame_property_witness :
    call baseImage cDet = .ok cOut ∧ cOut.pix 1000 1000 = baseImage.pix 1000 1000 := by
  have hcall : call baseImage cDet = .ok cOut := by
    unfold cOut
    exact call_eq_ok baseImage cDet cFace 0 0 10 0 5 10 rfl rfl (by norm_num)
  refine ⟨hcall, ?_⟩
  refine frame_property baseImage cDet cFace 0 0 10 0 5 10 cOut rfl rfl (by norm_num)
    hcall 1000 1000 ?_
  right
  left
  rw [cpX, crotW]
  norm_num

end Goggles
